import Mathlib

/-!
Shallow embedding of the utterance-generator repository
(`src/main.py`, `src/main_simple.py`, `src/manage_outputs.py`).

Python strings are modelled as Lean `String` / `List Char`; Python string
operations (`split`, `strip`, `startswith`, slicing) are re-implemented as
structurally recursive Lean functions over the underlying character lists so
that every definition is executable by the kernel.
-/

/-- The whitespace characters removed by Python's `str.strip()`
(ASCII subset: space, tab, newline, carriage return, vertical tab, form feed). -/
def pySpace (c : Char) : Bool :=
  c = ' ' || c = '\t' || c = '\n' || c = '\r' || c = '\x0b' || c = '\x0c'

/-- Python `str.strip()`: drop whitespace from both ends. -/
def pyStrip (cs : List Char) : List Char :=
  ((cs.dropWhile pySpace).reverse.dropWhile pySpace).reverse

/-- Auxiliary for `splitLines`: accumulates the current line in reverse. -/
def splitLinesAux : List Char → List Char → List (List Char)
  | [], acc => [acc.reverse]
  | c :: cs, acc =>
    if c = '\n' then acc.reverse :: splitLinesAux cs []
    else splitLinesAux cs (c :: acc)

/-- Python `text.split('\n')`: note `"".split('\n') == ['']` and a trailing
newline yields a trailing empty piece. -/
def splitLines (cs : List Char) : List (List Char) := splitLinesAux cs []

/-- Python `cleaned.split('.', 1)[1]`: everything after the first `'.'`
(callers guarantee a `'.'` is present; on a dot-free list this returns `[]`). -/
def afterFirstDot : List Char → List Char
  | [] => []
  | c :: cs => if c = '.' then cs else afterFirstDot cs

/-- Python `cleaned[0].isdigit()` on a string modelled as a char list. -/
def headIsDigit : List Char → Bool
  | [] => false
  | c :: _ => c.isDigit

/-- Python `cleaned.startswith(tup)` for a tuple of string patterns. -/
def startsWithAny (pats : List (List Char)) (cs : List Char) : Bool :=
  pats.any (fun p => p.isPrefixOf cs)

/-- The tuple `('-', '•', '*', '1.', '2.')` used by the two clients in
`src/main.py` (lines 150 and 236). -/
def bulletsMain : List (List Char) :=
  [['-'], ['•'], ['*'], ['1', '.'], ['2', '.']]

/-- The tuple `('-', '•', '*')` used by `src/main_simple.py` line 60. -/
def bulletsSimple : List (List Char) :=
  [['-'], ['•'], ['*']]

/-- Per-line processing of the parsing loop in `generate_utterances`
(`src/main.py` lines 234-241): strip, drop empty or bullet/`1.`/`2.` lines,
strip a leading `digit…'.'` prefix when a `'.'` occurs in the first 5
characters, drop the line if nothing remains. -/
def cleanLineGen (line : List Char) : Option (List Char) :=
  let cleaned := pyStrip line
  if cleaned.isEmpty || startsWithAny bulletsMain cleaned then none
  else
    let cleaned :=
      if !cleaned.isEmpty && headIsDigit cleaned && (cleaned.take 5).contains '.' then
        pyStrip (afterFirstDot cleaned)
      else cleaned
    if cleaned.isEmpty then none else some cleaned

/-- Per-line processing of the parsing loop in `generate_utterances_direct_api`
(`src/main.py` lines 148-155); textually identical to the loop in
`generate_utterances`. -/
def cleanLineDirect (line : List Char) : Option (List Char) :=
  let cleaned := pyStrip line
  if cleaned.isEmpty || startsWithAny bulletsMain cleaned then none
  else
    let cleaned :=
      if !cleaned.isEmpty && headIsDigit cleaned && (cleaned.take 5).contains '.' then
        pyStrip (afterFirstDot cleaned)
      else cleaned
    if cleaned.isEmpty then none else some cleaned

/-- Per-line processing of the parsing loop in `generate_utterances_simple`
(`src/main_simple.py` lines 58-65): the bullet tuple omits `'1.'`/`'2.'` and
the numbering strip additionally requires `len(cleaned) > 2`. -/
def cleanLineSimple (line : List Char) : Option (List Char) :=
  let cleaned := pyStrip line
  if cleaned.isEmpty || startsWithAny bulletsSimple cleaned then none
  else
    let cleaned :=
      if !cleaned.isEmpty && decide (cleaned.length > 2) && headIsDigit cleaned &&
          (cleaned.take 5).contains '.' then
        pyStrip (afterFirstDot cleaned)
      else cleaned
    if cleaned.isEmpty then none else some cleaned

/-- The `utterances` list accumulated by the loop in `generate_utterances`. -/
def parseGen (text : String) : List String :=
  (splitLines text.data).filterMap (fun l => (cleanLineGen l).map String.mk)

/-- The `utterances` list accumulated by the loop in
`generate_utterances_direct_api`. -/
def parseDirect (text : String) : List String :=
  (splitLines text.data).filterMap (fun l => (cleanLineDirect l).map String.mk)

/-- The `utterances` list accumulated by the loop in
`generate_utterances_simple`. -/
def parseSimple (text : String) : List String :=
  (splitLines text.data).filterMap (fun l => (cleanLineSimple l).map String.mk)

/-- The `while len(utterances) < 10: utterances.append(placeholder)` loop
followed by `utterances[:10]`. -/
def padTo10 (l : List String) (placeholder : String) : List String :=
  (l ++ List.replicate (10 - l.length) placeholder).take 10

/-- Normalization step of `generate_utterances` (`src/main.py` lines 231-249):
guarded by `if response_text.strip():`, pads with
`f"Alternative expression: {intention}"`, returns `None` otherwise. -/
def normalizeGen (text intention : String) : Option (List String) :=
  if pyStrip text.data = [] then none
  else some (padTo10 (parseGen text) ("Alternative expression: " ++ intention))

/-- Normalization step of `generate_utterances_direct_api` (`src/main.py`
lines 145-163): guarded by the truthiness of `response.text`, pads with
`f"Alternative expression: {intention}"`, returns `None` otherwise. -/
def normalizeDirect (text intention : String) : Option (List String) :=
  if text = "" then none
  else some (padTo10 (parseDirect text) ("Alternative expression: " ++ intention))

/-- Normalization step of `generate_utterances_simple` (`src/main_simple.py`
lines 55-73): guarded by the truthiness of `response.text`, pads with
`f"Alternative way to say: {intention}"`, returns `None` otherwise. -/
def normalizeSimple (text intention : String) : Option (List String) :=
  if text = "" then none
  else some (padTo10 (parseSimple text) ("Alternative way to say: " ++ intention))

/-- `generate_utterances` (`src/main.py` lines 170-255).  The runner/session
machinery and the event loop are abstracted by an `Except` outcome: `.error`
models any exception raised inside the `try` block (caught at lines 251-255
and converted to `None`), `.ok t` models the accumulated `response_text`. -/
def generate_utterances (api : Except String String) (intention : String) :
    Option (List String) :=
  match api with
  | .error _ => none
  | .ok text => normalizeGen text intention

/-- `generate_utterances_direct_api` (`src/main.py` lines 121-167).
`apiKey = none` models a missing `GOOGLE_API_KEY` (the raised `ValueError` is
caught by the same `except` and becomes `None`); the `Except` outcome models
the `generate_content` call (`.ok none` = falsy response object). -/
def generate_utterances_direct_api (apiKey : Option String)
    (api : Except String (Option String)) (intention : String) :
    Option (List String) :=
  match apiKey with
  | none => none
  | some _ =>
    match api with
    | .error _ => none
    | .ok none => none
    | .ok (some text) => normalizeDirect text intention

/-- `generate_utterances_simple` (`src/main_simple.py` lines 28-77); a missing
key returns `None` directly, any exception is caught and becomes `None`. -/
def generate_utterances_simple (apiKey : Option String)
    (api : Except String (Option String)) (intention : String) :
    Option (List String) :=
  match apiKey with
  | none => none
  | some _ =>
    match api with
    | .error _ => none
    | .ok none => none
    | .ok (some text) => normalizeSimple text intention

/-- Python truthiness of the `utterances` variable in `main()`:
`None` and the empty list are falsy. -/
def pyTruthy : Option (List String) → Bool
  | none => false
  | some l => !l.isEmpty

/-- Observable outcome of one run of the orchestrating `main()` flow. -/
structure FlowTrace where
  /-- The intentions the fallback client was invoked with, in order. -/
  fallbackArgs : List String
  /-- Whether `save_to_csv` was reached. -/
  savedCalled : Bool
  /-- Whether the "Failed to generate utterances" message was printed. -/
  failureReported : Bool
deriving DecidableEq

/-- The generation/fallback/persistence portion of `main()` (`src/main.py`
lines 332-350), parameterized by the two clients as functions from the
intention to their result. -/
def mainFlow (primaryClient fallbackClient : String → Option (List String))
    (intention : String) : FlowTrace :=
  let utterances := primaryClient intention
  let step :=
    if !pyTruthy utterances then (fallbackClient intention, [intention])
    else (utterances, ([] : List String))
  if !pyTruthy step.1 then ⟨step.2, false, true⟩
  else ⟨step.2, true, false⟩

/-! ### Helper lemmas about the string-processing primitives -/

theorem mem_of_mem_dropWhile {α : Type} {p : α → Bool} {l : List α} {a : α}
    (h : a ∈ l.dropWhile p) : a ∈ l := by
  have hs := List.takeWhile_append_dropWhile (p := p) (l := l)
  rw [← hs]
  exact List.mem_append_right _ h

theorem mem_dropWhile_of_not {α : Type} {p : α → Bool} {l : List α} {a : α}
    (ha : a ∈ l) (hp : p a = false) : a ∈ l.dropWhile p := by
  have hs := List.takeWhile_append_dropWhile (p := p) (l := l)
  rw [← hs] at ha
  rcases List.mem_append.1 ha with h | h
  · have := List.mem_takeWhile_imp h
    simp [hp] at this
  · exact h

theorem pyStrip_ne_nil_iff (l : List Char) :
    pyStrip l ≠ [] ↔ ∃ c ∈ l, pySpace c = false := by
  unfold pyStrip
  constructor
  · intro h
    rw [Ne, List.reverse_eq_nil_iff, List.dropWhile_eq_nil_iff] at h
    push_neg at h
    obtain ⟨c, hc, hcs⟩ := h
    exact ⟨c, mem_of_mem_dropWhile (List.mem_reverse.1 hc), by simpa using hcs⟩
  · rintro ⟨c, hc, hcs⟩
    rw [Ne, List.reverse_eq_nil_iff, List.dropWhile_eq_nil_iff]
    push_neg
    exact ⟨c, List.mem_reverse.2 (mem_dropWhile_of_not hc hcs), by simp [hcs]⟩

theorem pyStrip_has_nonspace {l : List Char} (h : pyStrip l ≠ []) :
    ∃ c ∈ pyStrip l, pySpace c = false := by
  unfold pyStrip at *
  rw [Ne, List.reverse_eq_nil_iff, List.dropWhile_eq_nil_iff] at h
  push_neg at h
  obtain ⟨c, hc, hcs⟩ := h
  have hcs' : pySpace c = false := by simpa using hcs
  exact ⟨c, List.mem_reverse.2 (mem_dropWhile_of_not hc hcs'), hcs'⟩

theorem mem_pyStrip {l : List Char} {c : Char} (h : c ∈ pyStrip l) : c ∈ l := by
  unfold pyStrip at h
  exact mem_of_mem_dropWhile
    (List.mem_reverse.1 (mem_of_mem_dropWhile (List.mem_reverse.1 h)))

theorem mem_afterFirstDot {l : List Char} {c : Char}
    (h : c ∈ afterFirstDot l) : c ∈ l := by
  induction l with
  | nil => simp [afterFirstDot] at h
  | cons a as ih =>
    by_cases ha : a = '.'
    · simp only [afterFirstDot, if_pos ha] at h
      exact List.mem_cons_of_mem _ h
    · rw [afterFirstDot, if_neg ha] at h
      exact List.mem_cons_of_mem _ (ih h)

theorem mem_splitLinesAux {c : Char} :
    ∀ (cs acc l : List Char), l ∈ splitLinesAux cs acc → c ∈ l → c ∈ cs ∨ c ∈ acc := by
  intro cs
  induction cs with
  | nil =>
    intro acc l hl hc
    simp only [splitLinesAux, List.mem_singleton] at hl
    subst hl
    exact Or.inr (List.mem_reverse.1 hc)
  | cons a as ih =>
    intro acc l hl hc
    by_cases ha : a = '\n'
    · rw [splitLinesAux, if_pos ha] at hl
      rcases List.mem_cons.1 hl with h | h
      · subst h
        exact Or.inr (List.mem_reverse.1 hc)
      · rcases ih [] l h hc with h' | h'
        · exact Or.inl (List.mem_cons_of_mem _ h')
        · simp at h'
    · rw [splitLinesAux, if_neg ha] at hl
      rcases ih (a :: acc) l hl hc with h' | h'
      · exact Or.inl (List.mem_cons_of_mem _ h')
      · rcases List.mem_cons.1 h' with h'' | h''
        · left; rw [h'']; exact List.mem_cons_self _ _
        · exact Or.inr h''

theorem mem_splitLines {cs l : List Char} {c : Char}
    (hl : l ∈ splitLines cs) (hc : c ∈ l) : c ∈ cs := by
  rcases mem_splitLinesAux cs [] l hl hc with h | h
  · exact h
  · simp at h

/-- A surviving line of `generate_utterances`' parsing loop contains a
non-whitespace character, and all its characters come from the input line. -/
theorem cleanLineGen_sound {l cs : List Char} (h : cleanLineGen l = some cs) :
    (∃ c ∈ cs, pySpace c = false) ∧ ∀ c ∈ cs, c ∈ l := by
  simp only [cleanLineGen] at h
  by_cases h1 : ((pyStrip l).isEmpty || startsWithAny bulletsMain (pyStrip l)) = true
  · rw [if_pos h1] at h; exact absurd h (by simp)
  · rw [if_neg h1] at h
    by_cases h2 : (!(pyStrip l).isEmpty && headIsDigit (pyStrip l) &&
        ((pyStrip l).take 5).contains '.') = true
    · rw [if_pos h2] at h
      by_cases h3 : (pyStrip (afterFirstDot (pyStrip l))).isEmpty = true
      · rw [if_pos h3] at h; exact absurd h (by simp)
      · rw [if_neg h3] at h
        obtain rfl := (Option.some.inj h).symm
        have hnn : pyStrip (afterFirstDot (pyStrip l)) ≠ [] :=
          List.isEmpty_eq_false.1 (Bool.not_eq_true _ ▸ eq_false_of_ne_true h3)
        refine ⟨pyStrip_has_nonspace hnn, fun c hc => ?_⟩
        exact mem_pyStrip (mem_afterFirstDot (mem_pyStrip hc))
    · rw [if_neg h2] at h
      by_cases h3 : (pyStrip l).isEmpty = true
      · rw [if_pos h3] at h; exact absurd h (by simp)
      · rw [if_neg h3] at h
        obtain rfl := (Option.some.inj h).symm
        have hnn : pyStrip l ≠ [] :=
          List.isEmpty_eq_false.1 (eq_false_of_ne_true h3)
        exact ⟨pyStrip_has_nonspace hnn, fun c hc => mem_pyStrip hc⟩

/-- Same soundness fact for the (textually identical) loop of
`generate_utterances_direct_api`. -/
theorem cleanLineDirect_sound {l cs : List Char} (h : cleanLineDirect l = some cs) :
    (∃ c ∈ cs, pySpace c = false) ∧ ∀ c ∈ cs, c ∈ l :=
  cleanLineGen_sound h

/-- Same soundness fact for the loop of `generate_utterances_simple`. -/
theorem cleanLineSimple_sound {l cs : List Char} (h : cleanLineSimple l = some cs) :
    (∃ c ∈ cs, pySpace c = false) ∧ ∀ c ∈ cs, c ∈ l := by
  simp only [cleanLineSimple] at h
  by_cases h1 : ((pyStrip l).isEmpty || startsWithAny bulletsSimple (pyStrip l)) = true
  · rw [if_pos h1] at h; exact absurd h (by simp)
  · rw [if_neg h1] at h
    by_cases h2 : (!(pyStrip l).isEmpty && decide ((pyStrip l).length > 2) &&
        headIsDigit (pyStrip l) && ((pyStrip l).take 5).contains '.') = true
    · rw [if_pos h2] at h
      by_cases h3 : (pyStrip (afterFirstDot (pyStrip l))).isEmpty = true
      · rw [if_pos h3] at h; exact absurd h (by simp)
      · rw [if_neg h3] at h
        obtain rfl := (Option.some.inj h).symm
        have hnn : pyStrip (afterFirstDot (pyStrip l)) ≠ [] :=
          List.isEmpty_eq_false.1 (eq_false_of_ne_true h3)
        refine ⟨pyStrip_has_nonspace hnn, fun c hc => ?_⟩
        exact mem_pyStrip (mem_afterFirstDot (mem_pyStrip hc))
    · rw [if_neg h2] at h
      by_cases h3 : (pyStrip l).isEmpty = true
      · rw [if_pos h3] at h; exact absurd h (by simp)
      · rw [if_neg h3] at h
        obtain rfl := (Option.some.inj h).symm
        have hnn : pyStrip l ≠ [] :=
          List.isEmpty_eq_false.1 (eq_false_of_ne_true h3)
        exact ⟨pyStrip_has_nonspace hnn, fun c hc => mem_pyStrip hc⟩

/-- Every entry of the accumulated `utterances` list is non-whitespace, and it
witnesses a non-whitespace character of the raw text. -/
theorem parseGen_mem {text u : String} (h : u ∈ parseGen text) :
    (∃ c ∈ u.data, pySpace c = false) ∧ ∃ c ∈ text.data, pySpace c = false := by
  simp only [parseGen] at h
  rcases List.mem_filterMap.1 h with ⟨l, hl, hcl⟩
  rcases Option.map_eq_some'.1 hcl with ⟨cs, hcs, rfl⟩
  obtain ⟨⟨c, hc, hcsp⟩, hsub⟩ := cleanLineGen_sound hcs
  exact ⟨⟨c, hc, hcsp⟩, ⟨c, mem_splitLines hl (hsub c hc), hcsp⟩⟩

theorem parseDirect_mem {text u : String} (h : u ∈ parseDirect text) :
    (∃ c ∈ u.data, pySpace c = false) ∧ ∃ c ∈ text.data, pySpace c = false :=
  parseGen_mem h

theorem parseSimple_mem {text u : String} (h : u ∈ parseSimple text) :
    (∃ c ∈ u.data, pySpace c = false) ∧ ∃ c ∈ text.data, pySpace c = false := by
  simp only [parseSimple] at h
  rcases List.mem_filterMap.1 h with ⟨l, hl, hcl⟩
  rcases Option.map_eq_some'.1 hcl with ⟨cs, hcs, rfl⟩
  obtain ⟨⟨c, hc, hcsp⟩, hsub⟩ := cleanLineSimple_sound hcs
  exact ⟨⟨c, hc, hcsp⟩, ⟨c, mem_splitLines hl (hsub c hc), hcsp⟩⟩

theorem text_ne_empty_of_nonspace {text : String} {c : Char} (hc : c ∈ text.data) :
    text ≠ "" := by
  intro he
  subst he
  simp at hc

theorem padTo10_length (l : List String) (p : String) : (padTo10 l p).length = 10 := by
  simp only [padTo10, List.length_take, List.length_append, List.length_replicate]
  omega

theorem mem_padTo10 {l : List String} {p u : String} (h : u ∈ padTo10 l p) :
    u ∈ l ∨ u = p := by
  simp only [padTo10] at h
  rcases List.mem_append.1 (List.take_subset _ _ h) with h' | h'
  · exact Or.inl h'
  · exact Or.inr (List.eq_of_mem_replicate h')

theorem padTo10_of_ge {l : List String} {p : String} (h : 10 ≤ l.length) :
    padTo10 l p = l.take 10 := by
  simp [padTo10, Nat.sub_eq_zero_of_le h]

theorem padTo10_of_lt {l : List String} {p : String} (h : l.length < 10) :
    padTo10 l p = l ++ List.replicate (10 - l.length) p := by
  apply List.take_of_length_le
  simp only [List.length_append, List.length_replicate]
  omega

theorem placeholder_strip_ne_nil (pre i : String) {c : Char} (hc : c ∈ pre.data)
    (hsp : pySpace c = false) : pyStrip (pre ++ i).data ≠ [] := by
  refine (pyStrip_ne_nil_iff _).2 ⟨c, ?_, hsp⟩
  rw [String.data_append]
  exact List.mem_append_left _ hc

theorem normalizeGen_eq_of_guard {text : String} (i : String)
    (h : pyStrip text.data ≠ []) :
    normalizeGen text i =
      some (padTo10 (parseGen text) ("Alternative expression: " ++ i)) := by
  simp [normalizeGen, h]

theorem normalizeDirect_eq_of_guard {text : String} (i : String) (h : text ≠ "") :
    normalizeDirect text i =
      some (padTo10 (parseDirect text) ("Alternative expression: " ++ i)) := by
  simp [normalizeDirect, h]

theorem normalizeSimple_eq_of_guard {text : String} (i : String) (h : text ≠ "") :
    normalizeSimple text i =
      some (padTo10 (parseSimple text) ("Alternative way to say: " ++ i)) := by
  simp [normalizeSimple, h]

/-! ### Claim theorems -/

/-- **C1**: for every raw text containing at least one well-formed line (a line
the client's own filter keeps) and every non-empty trimmed intention, the
normalization step of each client (`generate_utterances`,
`generate_utterances_direct_api`, `generate_utterances_simple`) returns a list
of exactly 10 strings, none of which is empty or whitespace-only after
trimming. -/
theorem normalizers_return_ten_nonempty (text intention : String)
    (_hint : pyStrip intention.data ≠ []) :
    ((∃ l ∈ splitLines text.data, (cleanLineGen l).isSome) →
      ∃ out, normalizeGen text intention = some out ∧ out.length = 10 ∧
        ∀ u ∈ out, pyStrip u.data ≠ []) ∧
    ((∃ l ∈ splitLines text.data, (cleanLineDirect l).isSome) →
      ∃ out, normalizeDirect text intention = some out ∧ out.length = 10 ∧
        ∀ u ∈ out, pyStrip u.data ≠ []) ∧
    ((∃ l ∈ splitLines text.data, (cleanLineSimple l).isSome) →
      ∃ out, normalizeSimple text intention = some out ∧ out.length = 10 ∧
        ∀ u ∈ out, pyStrip u.data ≠ []) := by
  refine ⟨?_, ?_, ?_⟩
  · rintro ⟨l, hl, hsome⟩
    obtain ⟨cs, hcs⟩ := Option.isSome_iff_exists.1 hsome
    obtain ⟨⟨c, hc, hsp⟩, hsub⟩ := cleanLineGen_sound hcs
    have hguard : pyStrip text.data ≠ [] :=
      (pyStrip_ne_nil_iff _).2 ⟨c, mem_splitLines hl (hsub c hc), hsp⟩
    refine ⟨_, normalizeGen_eq_of_guard intention hguard, padTo10_length _ _, ?_⟩
    intro u hu
    rcases mem_padTo10 hu with h' | rfl
    · exact (pyStrip_ne_nil_iff _).2 (parseGen_mem h').1
    · exact placeholder_strip_ne_nil "Alternative expression: " intention
        (c := 'A') (by decide) (by decide)
  · rintro ⟨l, hl, hsome⟩
    obtain ⟨cs, hcs⟩ := Option.isSome_iff_exists.1 hsome
    obtain ⟨⟨c, hc, hsp⟩, hsub⟩ := cleanLineDirect_sound hcs
    have hguard : text ≠ "" :=
      text_ne_empty_of_nonspace (mem_splitLines hl (hsub c hc))
    refine ⟨_, normalizeDirect_eq_of_guard intention hguard, padTo10_length _ _, ?_⟩
    intro u hu
    rcases mem_padTo10 hu with h' | rfl
    · exact (pyStrip_ne_nil_iff _).2 (parseDirect_mem h').1
    · exact placeholder_strip_ne_nil "Alternative expression: " intention
        (c := 'A') (by decide) (by decide)
  · rintro ⟨l, hl, hsome⟩
    obtain ⟨cs, hcs⟩ := Option.isSome_iff_exists.1 hsome
    obtain ⟨⟨c, hc, hsp⟩, hsub⟩ := cleanLineSimple_sound hcs
    have hguard : text ≠ "" :=
      text_ne_empty_of_nonspace (mem_splitLines hl (hsub c hc))
    refine ⟨_, normalizeSimple_eq_of_guard intention hguard, padTo10_length _ _, ?_⟩
    intro u hu
    rcases mem_padTo10 hu with h' | rfl
    · exact (pyStrip_ne_nil_iff _).2 (parseSimple_mem h').1
    · exact placeholder_strip_ne_nil "Alternative way to say: " intention
        (c := 'A') (by decide) (by decide)

/-- Witness for C1 at the concrete raw text `"Hello there\n- skip"` and
intention `"order a pizza"`. -/
theorem normalizers_return_ten_nonempty_wit :
    (∃ out, normalizeGen "Hello there\n- skip" "order a pizza" = some out ∧
      out.length = 10 ∧ ∀ u ∈ out, pyStrip u.data ≠ []) ∧
    (∃ out, normalizeDirect "Hello there\n- skip" "order a pizza" = some out ∧
      out.length = 10 ∧ ∀ u ∈ out, pyStrip u.data ≠ []) ∧
    (∃ out, normalizeSimple "Hello there\n- skip" "order a pizza" = some out ∧
      out.length = 10 ∧ ∀ u ∈ out, pyStrip u.data ≠ []) :=
  ⟨(normalizers_return_ten_nonempty "Hello there\n- skip" "order a pizza"
      (by decide)).1 (by decide),
   (normalizers_return_ten_nonempty "Hello there\n- skip" "order a pizza"
      (by decide)).2.1 (by decide),
   (normalizers_return_ten_nonempty "Hello there\n- skip" "order a pizza"
      (by decide)).2.2 (by decide)⟩

/-- **C2** (counterexample): in `generate_utterances` and
`generate_utterances_direct_api` the input line `"1. Hello there"` is NOT
mapped to `"Hello there"` — it is discarded by the bullet filter, whose tuple
also contains `'1.'` and `'2.'`, so the output is all placeholders and
`"Hello there"` does not occur in it. -/
theorem numbered_line_one_discarded_cex :
    (normalizeGen "1. Hello there" "order a pizza").map
      (fun l => decide ("Hello there" ∈ l)) = some false ∧
    (normalizeDirect "1. Hello there" "order a pizza").map
      (fun l => decide ("Hello there" ∈ l)) = some false := by
  decide

/-- **C2** (amended): `generate_utterances_simple` maps `"1. Hello there"` to
`"Hello there"`, while the two clients in `main.py` discard any line starting
with `'1.'` or `'2.'` (their bullet tuple includes those prefixes) yet do
strip other numbered prefixes such as `"3. "`; the line `"- Hi"` is discarded
by all three. -/
theorem numbered_line_handling_amended :
    parseSimple "1. Hello there" = ["Hello there"] ∧
    parseGen "1. Hello there" = [] ∧
    parseDirect "1. Hello there" = [] ∧
    parseGen "3. Hello there" = ["Hello there"] ∧
    parseDirect "3. Hello there" = ["Hello there"] ∧
    parseSimple "3. Hello there" = ["Hello there"] ∧
    parseGen "- Hi" = [] ∧ parseDirect "- Hi" = [] ∧ parseSimple "- Hi" = [] := by
  decide

/-- **C3** (counterexample): normalizing empty raw text yields `None` in all
three clients (the guard on the raw text fails), not a list of placeholders;
and the placeholder form of `generate_utterances_simple` is
`"Alternative way to say: {intention}"`, not
`"Alternative expression: {intention}"`. -/
theorem empty_text_padding_cex :
    normalizeGen "" "order a pizza" = none ∧
    normalizeDirect "" "order a pizza" = none ∧
    normalizeSimple "" "order a pizza" = none ∧
    normalizeSimple " " "order a pizza" =
      some (List.replicate 10 "Alternative way to say: order a pizza") := by
  decide

/-- **C3** (amended): empty raw text is rejected by the clients' guard and
yields `None`; whenever non-empty (per the respective guard) raw text parses
to fewer than 10 entries, the `main.py` clients append
`"Alternative expression: {intention}"` placeholders until the count reaches
10, while `generate_utterances_simple` appends
`"Alternative way to say: {intention}"`. -/
theorem padding_behavior_amended (text intention : String) :
    (normalizeGen "" intention = none ∧ normalizeDirect "" intention = none ∧
      normalizeSimple "" intention = none) ∧
    (pyStrip text.data ≠ [] → (parseGen text).length < 10 →
      normalizeGen text intention = some (parseGen text ++
        List.replicate (10 - (parseGen text).length)
          ("Alternative expression: " ++ intention))) ∧
    (text ≠ "" → (parseDirect text).length < 10 →
      normalizeDirect text intention = some (parseDirect text ++
        List.replicate (10 - (parseDirect text).length)
          ("Alternative expression: " ++ intention))) ∧
    (text ≠ "" → (parseSimple text).length < 10 →
      normalizeSimple text intention = some (parseSimple text ++
        List.replicate (10 - (parseSimple text).length)
          ("Alternative way to say: " ++ intention))) := by
  refine ⟨⟨rfl, rfl, rfl⟩, ?_, ?_, ?_⟩
  · intro h1 h2
    rw [normalizeGen_eq_of_guard intention h1, padTo10_of_lt h2]
  · intro h1 h2
    rw [normalizeDirect_eq_of_guard intention h1, padTo10_of_lt h2]
  · intro h1 h2
    rw [normalizeSimple_eq_of_guard intention h1, padTo10_of_lt h2]

/-- Witness for the amended C3 at raw text `"hello"`. -/
theorem padding_behavior_amended_wit :
    normalizeGen "hello" "order a pizza" =
      some (parseGen "hello" ++ List.replicate (10 - (parseGen "hello").length)
        ("Alternative expression: " ++ "order a pizza")) ∧
    normalizeSimple "hello" "order a pizza" =
      some (parseSimple "hello" ++ List.replicate (10 - (parseSimple "hello").length)
        ("Alternative way to say: " ++ "order a pizza")) :=
  ⟨(padding_behavior_amended "hello" "order a pizza").2.1 (by decide) (by decide),
   (padding_behavior_amended "hello" "order a pizza").2.2.2 (by decide) (by decide)⟩

/-- **C4** (counterexample): the three per-client copies of the normalization
logic are not extensionally equal: `generate_utterances_simple` keeps the line
`"1. Hello there"` (and pads with a different placeholder), while the
`main.py` copies discard it; and on whitespace-only non-empty text the
session-based copy returns `None` while the direct-API copy returns
placeholders. -/
theorem normalizer_copies_differ_cex :
    normalizeGen "1. Hello there" "order a pizza" ≠
      normalizeSimple "1. Hello there" "order a pizza" ∧
    normalizeGen " " "order a pizza" ≠ normalizeDirect " " "order a pizza" := by
  decide

/-- **C4** (amended): the two copies inside `main.py` (`generate_utterances`
and `generate_utterances_direct_api`) are extensionally equal on every raw
text that is empty or non-whitespace-only (they differ only on whitespace-only
non-empty text, where their guards diverge); `generate_utterances_simple` is a
genuinely different normalizer. -/
theorem main_copies_agree_amended (text intention : String)
    (h : text = "" ∨ pyStrip text.data ≠ []) :
    normalizeGen text intention = normalizeDirect text intention := by
  rcases h with rfl | h
  · rfl
  · have hne : text ≠ "" := by
      intro he
      subst he
      exact h rfl
    rw [normalizeGen_eq_of_guard intention h, normalizeDirect_eq_of_guard intention hne]
    rfl

/-- Witness for the amended C4 at raw text `"hello"`. -/
theorem main_copies_agree_amended_wit :
    normalizeGen "hello" "order a pizza" = normalizeDirect "hello" "order a pizza" :=
  main_copies_agree_amended "hello" "order a pizza" (Or.inr (by decide))

/-- **C5**: in the orchestrating `main()` flow, if the primary client's result
is not usable (falsy), the fallback client is invoked exactly once with the
same intention; if the fallback result is also unusable, failure is reported
and `save_to_csv` is not called (and if the fallback succeeds, the run
saves). -/
theorem fallback_orchestration
    (primaryClient fallbackClient : String → Option (List String))
    (intention : String) (h : pyTruthy (primaryClient intention) = false) :
    (mainFlow primaryClient fallbackClient intention).fallbackArgs = [intention] ∧
    (pyTruthy (fallbackClient intention) = false →
      (mainFlow primaryClient fallbackClient intention).savedCalled = false ∧
      (mainFlow primaryClient fallbackClient intention).failureReported = true) ∧
    (pyTruthy (fallbackClient intention) = true →
      (mainFlow primaryClient fallbackClient intention).savedCalled = true) := by
  cases hf : pyTruthy (fallbackClient intention) <;>
    simp [mainFlow, h, hf]

/-- Witness for C5 with clients that always return `None`. -/
theorem fallback_orchestration_wit :
    (mainFlow (fun _ => none) (fun _ => none) "order a pizza").fallbackArgs =
      ["order a pizza"] ∧
    (mainFlow (fun _ => none) (fun _ => none) "order a pizza").savedCalled = false ∧
    (mainFlow (fun _ => none) (fun _ => none) "order a pizza").failureReported = true :=
  ⟨(fallback_orchestration (fun _ => none) (fun _ => none) "order a pizza"
      (by decide)).1,
   ((fallback_orchestration (fun _ => none) (fun _ => none) "order a pizza"
      (by decide)).2.1 (by decide)).1,
   ((fallback_orchestration (fun _ => none) (fun _ => none) "order a pizza"
      (by decide)).2.1 (by decide)).2⟩

/-- **C6**: when the raw text parses to more than 10 well-formed lines, each
normalizer outputs exactly the first 10 parsed entries in their original
order (the `[:10]` slice drops only the trailing surplus). -/
theorem truncation_first_ten (text intention : String) :
    (10 < (parseGen text).length →
      normalizeGen text intention = some ((parseGen text).take 10) ∧
      normalizeDirect text intention = some ((parseDirect text).take 10)) ∧
    (10 < (parseSimple text).length →
      normalizeSimple text intention = some ((parseSimple text).take 10)) := by
  constructor
  · intro h
    have hne : parseGen text ≠ [] := by
      intro he
      rw [he] at h
      simp at h
    obtain ⟨u, hu⟩ := List.exists_mem_of_ne_nil _ hne
    obtain ⟨_, ⟨c, hc, hsp⟩⟩ := parseGen_mem hu
    have hguard : pyStrip text.data ≠ [] := (pyStrip_ne_nil_iff _).2 ⟨c, hc, hsp⟩
    have hne' : text ≠ "" := text_ne_empty_of_nonspace hc
    have hD : 10 ≤ (parseDirect text).length := le_of_lt h
    constructor
    · rw [normalizeGen_eq_of_guard intention hguard, padTo10_of_ge (le_of_lt h)]
    · rw [normalizeDirect_eq_of_guard intention hne', padTo10_of_ge hD]
  · intro h
    have hne : parseSimple text ≠ [] := by
      intro he
      rw [he] at h
      simp at h
    obtain ⟨u, hu⟩ := List.exists_mem_of_ne_nil _ hne
    obtain ⟨_, ⟨c, hc, hsp⟩⟩ := parseSimple_mem hu
    have hne' : text ≠ "" := text_ne_empty_of_nonspace hc
    rw [normalizeSimple_eq_of_guard intention hne', padTo10_of_ge (le_of_lt h)]

/-- Witness for C6 on a raw text with 11 well-formed lines. -/
theorem truncation_first_ten_wit :
    normalizeGen "a\nb\nc\nd\ne\nf\ng\nh\ni\nj\nk" "p" =
      some ((parseGen "a\nb\nc\nd\ne\nf\ng\nh\ni\nj\nk").take 10) ∧
    normalizeSimple "a\nb\nc\nd\ne\nf\ng\nh\ni\nj\nk" "p" =
      some ((parseSimple "a\nb\nc\nd\ne\nf\ng\nh\ni\nj\nk").take 10) :=
  ⟨((truncation_first_ten "a\nb\nc\nd\ne\nf\ng\nh\ni\nj\nk" "p").1 (by decide)).1,
   (truncation_first_ten "a\nb\nc\nd\ne\nf\ng\nh\ni\nj\nk" "p").2 (by decide)⟩

/-- **C7**: each client either returns `None` (every internal failure — a
missing key, a falsy response, or a raised exception, here the `.error`
outcome — is converted to `None` at the function boundary) or a complete
10-element utterance list. -/
theorem clients_never_throw (api : Except String String) (apiKey : Option String)
    (apiD apiS : Except String (Option String)) (intention : String) :
    (generate_utterances api intention = none ∨
      ∃ l, generate_utterances api intention = some l ∧ l.length = 10) ∧
    (generate_utterances_direct_api apiKey apiD intention = none ∨
      ∃ l, generate_utterances_direct_api apiKey apiD intention = some l ∧
        l.length = 10) ∧
    (generate_utterances_simple apiKey apiS intention = none ∨
      ∃ l, generate_utterances_simple apiKey apiS intention = some l ∧
        l.length = 10) := by
  refine ⟨?_, ?_, ?_⟩
  · cases api with
    | error e => exact Or.inl rfl
    | ok text =>
      simp only [generate_utterances, normalizeGen]
      by_cases h : pyStrip text.data = []
      · rw [if_pos h]; exact Or.inl rfl
      · rw [if_neg h]; exact Or.inr ⟨_, rfl, padTo10_length _ _⟩
  · cases apiKey with
    | none => exact Or.inl rfl
    | some k =>
      cases apiD with
      | error e => exact Or.inl rfl
      | ok r =>
        cases r with
        | none => exact Or.inl rfl
        | some text =>
          simp only [generate_utterances_direct_api, normalizeDirect]
          by_cases h : text = ""
          · rw [if_pos h]; exact Or.inl rfl
          · rw [if_neg h]; exact Or.inr ⟨_, rfl, padTo10_length _ _⟩
  · cases apiKey with
    | none => exact Or.inl rfl
    | some k =>
      cases apiS with
      | error e => exact Or.inl rfl
      | ok r =>
        cases r with
        | none => exact Or.inl rfl
        | some text =>
          simp only [generate_utterances_simple, normalizeSimple]
          by_cases h : text = ""
          · rw [if_pos h]; exact Or.inl rfl
          · rw [if_neg h]; exact Or.inr ⟨_, rfl, padTo10_length _ _⟩

/-! ### Persistence: `save_to_csv` (`src/main.py` lines 258-297,
`src/main_simple.py` lines 80-119; the path logic is identical) -/

/-- A `datetime.now()` value as observed by `save_to_csv`.  `strftime` with
`"%Y%m%d_%H%M%S"` drops the microsecond field. -/
structure PyDatetime where
  year : Nat
  month : Nat
  day : Nat
  hour : Nat
  minute : Nat
  second : Nat
  microsecond : Nat
deriving DecidableEq

/-- The decimal digit character of `n % 10`. -/
def digitChar (n : Nat) : Char := Char.ofNat (48 + n % 10)

/-- Zero-padded two-digit decimal rendering, as produced by `strftime`'s
`%m`, `%d`, `%H`, `%M`, `%S` for in-range values. -/
def pad2c (n : Nat) : List Char := [digitChar (n / 10), digitChar n]

/-- Zero-padded four-digit decimal rendering, as produced by `strftime`'s
`%Y` for in-range years. -/
def pad4c (n : Nat) : List Char :=
  [digitChar (n / 1000), digitChar (n / 100), digitChar (n / 10), digitChar n]

/-- `datetime.now().strftime('%Y%m%d')`. -/
def strf_Ymd (t : PyDatetime) : String :=
  String.mk (pad4c t.year ++ pad2c t.month ++ pad2c t.day)

/-- `datetime.now().strftime("%Y%m%d_%H%M%S")`. -/
def strf_Ymd_HMS (t : PyDatetime) : String :=
  String.mk (pad4c t.year ++ pad2c t.month ++ pad2c t.day ++
    '_' :: (pad2c t.hour ++ pad2c t.minute ++ pad2c t.second))

/-- `output_dir = f"utterance_outputs_{datetime.now().strftime('%Y%m%d')}"`. -/
def save_output_dir (now : PyDatetime) : String :=
  "utterance_outputs_" ++ strf_Ymd now

/-- `filename = f"utterances_{timestamp}.csv"`. -/
def save_filename (now : PyDatetime) : String :=
  "utterances_" ++ strf_Ymd_HMS now ++ ".csv"

/-- `filepath = os.path.join(output_dir, filename)`. -/
def save_filepath (now : PyDatetime) : String :=
  save_output_dir now ++ "/" ++ save_filename now

/-- One CSV data row: `{'id': i, 'utterance': u, 'original_intention': intention}`. -/
structure OutputRow where
  id : Nat
  utterance : String
  original_intention : String
deriving DecidableEq

/-- `open(filepath, 'w')` followed by writing `rows`: creates the file if
absent, truncates and overwrites it if present. -/
def setFile : List (String × List OutputRow) → String → List OutputRow →
    List (String × List OutputRow)
  | [], p, rows => [(p, rows)]
  | (q, old) :: fs, p, rows =>
    if q = p then (p, rows) :: fs else (q, old) :: setFile fs p rows

/-- `save_to_csv(utterances, intention)` at time `now`, acting on a filesystem
modelled as an association list from file path to written rows; returns the
new filesystem and the returned `filepath`. -/
def save_to_csv (fs : List (String × List OutputRow)) (utterances : List String)
    (intention : String) (now : PyDatetime) :
    List (String × List OutputRow) × String :=
  let filepath := save_filepath now
  let csv_data := utterances.enum.map
    (fun p => OutputRow.mk (p.1 + 1) p.2 intention)
  (setFile fs filepath csv_data, filepath)

theorem digitChar_inj : ∀ a, a < 10 → ∀ b, b < 10 → digitChar a = digitChar b →
    a = b := by decide

theorem data_mk (l : List Char) : (String.mk l).data = l := rfl

theorem data_outputs_lit : "utterance_outputs_".data =
    ['u', 't', 't', 'e', 'r', 'a', 'n', 'c', 'e', '_', 'o', 'u', 't', 'p', 'u',
     't', 's', '_'] := rfl

theorem data_utterances_lit : "utterances_".data =
    ['u', 't', 't', 'e', 'r', 'a', 'n', 'c', 'e', 's', '_'] := rfl

theorem data_slash_lit : "/".data = ['/'] := rfl

theorem data_csv_lit : ".csv".data = ['.', 'c', 's', 'v'] := rfl

theorem digitChar_mod_inj {a b : Nat} (h : digitChar a = digitChar b) :
    a % 10 = b % 10 := by
  have h' : digitChar (a % 10) = digitChar (b % 10) := by
    simp only [digitChar]
    have e1 : a % 10 % 10 = a % 10 := by omega
    have e2 : b % 10 % 10 = b % 10 := by omega
    rw [e1, e2]
    exact h
  exact digitChar_inj _ (by omega) _ (by omega) h'

/-- **C8** (amended): the generated file path is determined by, and uniquely
determines, the second-resolution timestamp fields: two invocations whose
`datetime.now()` values agree down to the second (regardless of microseconds)
produce the SAME path, and two invocations differing in any of the
year/month/day/hour/minute/second fields (within their formatting ranges)
produce distinct paths.  In particular an invocation can overwrite an existing
file (see the counterexample). -/
theorem save_filepath_injective_amended (t1 t2 : PyDatetime)
    (hy1 : t1.year < 10000) (hmo1 : t1.month < 100) (hd1 : t1.day < 100)
    (hh1 : t1.hour < 100) (hmi1 : t1.minute < 100) (hs1 : t1.second < 100)
    (hy2 : t2.year < 10000) (hmo2 : t2.month < 100) (hd2 : t2.day < 100)
    (hh2 : t2.hour < 100) (hmi2 : t2.minute < 100) (hs2 : t2.second < 100) :
    save_filepath t1 = save_filepath t2 ↔
      (t1.year, t1.month, t1.day, t1.hour, t1.minute, t1.second) =
      (t2.year, t2.month, t2.day, t2.hour, t2.minute, t2.second) := by
  constructor
  · intro h
    have hdata := congrArg String.data h
    simp only [save_filepath, save_output_dir, save_filename, strf_Ymd,
      strf_Ymd_HMS, String.data_append, data_mk, data_outputs_lit,
      data_utterances_lit, data_slash_lit, data_csv_lit, pad4c, pad2c,
      List.cons_append, List.nil_append, List.append_assoc,
      List.cons.injEq, true_and, and_true] at hdata
    simp only [Prod.mk.injEq]
    obtain ⟨q1, q2, q3, q4, q5, q6, q7, q8, -, -, -, -, -, -, -, -,
      q9, q10, q11, q12, q13, q14⟩ := hdata
    have e1 := digitChar_mod_inj q1
    have e2 := digitChar_mod_inj q2
    have e3 := digitChar_mod_inj q3
    have e4 := digitChar_mod_inj q4
    have e5 := digitChar_mod_inj q5
    have e6 := digitChar_mod_inj q6
    have e7 := digitChar_mod_inj q7
    have e8 := digitChar_mod_inj q8
    have e9 := digitChar_mod_inj q9
    have e10 := digitChar_mod_inj q10
    have e11 := digitChar_mod_inj q11
    have e12 := digitChar_mod_inj q12
    have e13 := digitChar_mod_inj q13
    have e14 := digitChar_mod_inj q14
    refine ⟨?_, ?_, ?_, ?_, ?_, ?_⟩ <;> omega
  · intro h
    simp only [Prod.mk.injEq] at h
    obtain ⟨hy, hmo, hd, hh, hmi, hs⟩ := h
    simp [save_filepath, save_output_dir, save_filename, strf_Ymd, strf_Ymd_HMS,
      hy, hmo, hd, hh, hmi, hs]

/-- **C8** (counterexample): two distinct invocation times inside the same
calendar second produce the SAME file path (the `%Y%m%d_%H%M%S` timestamp has
only second resolution), and the second invocation overwrites the first file:
after both saves the filesystem holds a single file containing only the second
run's rows. -/
theorem same_second_collision_cex :
    (⟨2025, 3, 4, 5, 6, 7, 0⟩ : PyDatetime) ≠ ⟨2025, 3, 4, 5, 6, 7, 999999⟩ ∧
    save_filepath ⟨2025, 3, 4, 5, 6, 7, 0⟩ =
      save_filepath ⟨2025, 3, 4, 5, 6, 7, 999999⟩ ∧
    save_filepath ⟨2025, 3, 4, 5, 6, 7, 0⟩ =
      "utterance_outputs_20250304/utterances_20250304_050607.csv" ∧
    (save_to_csv
        (save_to_csv [] ["first run"] "order a pizza" ⟨2025, 3, 4, 5, 6, 7, 0⟩).1
        ["second run"] "order a pizza" ⟨2025, 3, 4, 5, 6, 7, 999999⟩).1 =
      [("utterance_outputs_20250304/utterances_20250304_050607.csv",
        [⟨1, "second run", "order a pizza"⟩])] := by
  decide

/-- Witness for the amended C8: timestamps differing in the seconds field give
distinct paths. -/
theorem save_filepath_injective_amended_wit :
    save_filepath ⟨2025, 3, 4, 5, 6, 7, 0⟩ ≠ save_filepath ⟨2025, 3, 4, 5, 6, 8, 0⟩ :=
  fun h => absurd
    ((save_filepath_injective_amended ⟨2025, 3, 4, 5, 6, 7, 0⟩
        ⟨2025, 3, 4, 5, 6, 8, 0⟩ (by decide) (by decide) (by decide) (by decide)
        (by decide) (by decide) (by decide) (by decide) (by decide) (by decide)
        (by decide) (by decide)).1 h)
    (by decide)

/-! ### Housekeeping tool: `src/manage_outputs.py` -/

/-- One top-level entry of the working directory (`os.listdir('.')`). -/
structure DirEntry where
  name : String
  isDir : Bool
deriving DecidableEq

/-- Python `s.startswith(pre)`. -/
def pyStartsWith (pre s : String) : Bool := pre.data.isPrefixOf s.data

/-- Code-point lexicographic `<=` on char lists (Python string ordering). -/
def charsLe : List Char → List Char → Bool
  | [], _ => true
  | _ :: _, [] => false
  | a :: as, b :: bs => if a = b then charsLe as bs else decide (a < b)

/-- Python `<=` on strings. -/
def pyStrLe (a b : String) : Bool := charsLe a.data b.data

/-- Stable insertion used to model Python `sorted` (ascending, stable). -/
def insertStable (a : String) : List String → List String
  | [] => [a]
  | b :: bs => if pyStrLe b a then b :: insertStable a bs else a :: b :: bs

/-- Python `sorted(folders)`. -/
def pySorted (l : List String) : List String :=
  l.foldl (fun acc a => insertStable a acc) []

/-- `list_output_folders` (`src/manage_outputs.py` lines 11-17): the sorted
names of directories starting with `'utterance_outputs_'`. -/
def list_output_folders (entries : List DirEntry) : List String :=
  pySorted ((entries.filter
    (fun e => e.isDir && pyStartsWith "utterance_outputs_" e.name)).map
      (fun e => e.name))

/-- Fueled helper for `removePat`. -/
def removePatAux (pat : List Char) : Nat → List Char → List Char
  | 0, s => s
  | _ + 1, [] => []
  | fuel + 1, c :: cs =>
    if pat.isPrefixOf (c :: cs) then
      removePatAux pat fuel (List.drop (pat.length - 1) cs)
    else c :: removePatAux pat fuel cs

/-- Python `s.replace(pat, '')` for a non-empty pattern: removes all
non-overlapping occurrences left to right (the fuel `s.length` suffices
because every step consumes at least one character). -/
def removePat (pat s : List Char) : List Char := removePatAux pat s.length s

/-- `date_str = folder.replace('utterance_outputs_', '')`
(`src/manage_outputs.py` line 28). -/
def folderDateStr (folder : String) : String :=
  String.mk (removePat "utterance_outputs_".data folder.data)

/-- Gregorian leap year, as in Python's `calendar`/`datetime`. -/
def isLeap (y : Nat) : Bool := y % 4 == 0 && (y % 100 != 0 || y % 400 == 0)

/-- Days in a month of the proleptic Gregorian calendar. -/
def daysInMonth (y m : Nat) : Nat :=
  if m = 2 then (if isLeap y then 29 else 28)
  else if m = 4 ∨ m = 6 ∨ m = 9 ∨ m = 11 then 30
  else 31

/-- The validation performed by the `datetime` constructor
(`MINYEAR <= year <= MAXYEAR`, month and day ranges). -/
def validDate (y m d : Nat) : Bool :=
  decide (1 ≤ y) && decide (y ≤ 9999) && decide (1 ≤ m) && decide (m ≤ 12) &&
    decide (1 ≤ d) && decide (d ≤ daysInMonth y m)

/-- CPython's `_strptime` day pattern `3[01]|[12]\d|0[1-9]|[1-9]`, alternatives
tried in this order; returns the parsed day and the unconsumed characters. -/
def matchDay (cs : List Char) : Option (Nat × List Char) :=
  match cs with
  | [] => none
  | c1 :: rest1 =>
    if c1 = '3' then
      match rest1 with
      | c2 :: rest2 =>
        if c2 = '0' then some (30, rest2)
        else if c2 = '1' then some (31, rest2)
        else some (3, rest1)
      | [] => some (3, rest1)
    else if c1 = '1' ∨ c1 = '2' then
      match rest1 with
      | c2 :: rest2 =>
        if c2.isDigit then some ((c1.toNat - 48) * 10 + (c2.toNat - 48), rest2)
        else some (c1.toNat - 48, rest1)
      | [] => some (c1.toNat - 48, rest1)
    else if c1 = '0' then
      match rest1 with
      | c2 :: rest2 =>
        if '1' ≤ c2 ∧ c2 ≤ '9' then some (c2.toNat - 48, rest2) else none
      | [] => none
    else if c1.isDigit then some (c1.toNat - 48, rest1)
    else none

/-- CPython's `_strptime` month pattern `1[0-2]|0[1-9]|[1-9]` followed by the
day pattern, with regex backtracking: a month alternative is kept only if the
day pattern can match the remainder. -/
def matchMonthDay (cs : List Char) : Option (Nat × Nat × List Char) :=
  let try10 : Option (Nat × Nat × List Char) :=
    match cs with
    | '1' :: c2 :: rest2 =>
      if c2 = '0' ∨ c2 = '1' ∨ c2 = '2' then
        (matchDay rest2).map (fun p => (10 + (c2.toNat - 48), p.1, p.2))
      else none
    | _ => none
  match try10 with
  | some x => some x
  | none =>
    let try0 : Option (Nat × Nat × List Char) :=
      match cs with
      | '0' :: c2 :: rest2 =>
        if '1' ≤ c2 ∧ c2 ≤ '9' then
          (matchDay rest2).map (fun p => (c2.toNat - 48, p.1, p.2))
        else none
      | _ => none
    match try0 with
    | some x => some x
    | none =>
      match cs with
      | c1 :: rest1 =>
        if '1' ≤ c1 ∧ c1 ≤ '9' then
          (matchDay rest1).map (fun p => (c1.toNat - 48, p.1, p.2))
        else none
      | [] => none

/-- `datetime.strptime(date_str, '%Y%m%d')` (`src/manage_outputs.py` line 29):
four digit year, then the month/day regex; the whole string must be consumed
("unconverted data remains" otherwise) and the resulting date must be valid,
else `ValueError` (modelled as `none`). -/
def strptimeYmd (s : String) : Option (Nat × Nat × Nat) :=
  match s.data with
  | y1 :: y2 :: y3 :: y4 :: rest =>
    if y1.isDigit && y2.isDigit && y3.isDigit && y4.isDigit then
      let y := (((y1.toNat - 48) * 10 + (y2.toNat - 48)) * 10 +
        (y3.toNat - 48)) * 10 + (y4.toNat - 48)
      match matchMonthDay rest with
      | some (m, d, r) =>
        if r = [] then
          if validDate y m d then some (y, m, d) else none
        else none
      | none => none
    else none
  | _ => none

/-- Days before the first of month `m` in year `y`. -/
def daysBeforeMonth (y m : Nat) : Nat :=
  (List.range (m - 1)).foldl (fun acc i => acc + daysInMonth y (i + 1)) 0

/-- Python `date.toordinal()`: day number in the proleptic Gregorian calendar
with `0001-01-01` as day 1. -/
def toordinal (y m d : Nat) : Nat :=
  (y - 1) * 365 + (y - 1) / 4 - (y - 1) / 100 + (y - 1) / 400 +
    daysBeforeMonth y m + d

/-- A naive `datetime` as a microsecond count, for order comparisons and
`timedelta` arithmetic. -/
def dtValue (t : PyDatetime) : Int :=
  ((toordinal t.year t.month t.day : Int) * 86400 + t.hour * 3600 +
    t.minute * 60 + t.second) * 1000000 + t.microsecond

/-- The `datetime` produced by `strptime` (midnight of the parsed date). -/
def midnightValue (y m d : Nat) : Int :=
  ((toordinal y m d : Int) * 86400) * 1000000

/-- `cutoff_date = datetime.now() - timedelta(days=days_old)`
(`src/manage_outputs.py` line 22). -/
def cutoffValue (now : PyDatetime) (days_old : Nat) : Int :=
  dtValue now - (days_old : Int) * 86400 * 1000000

/-- Whether `clean_old_folders` deletes `folder`: its name-embedded date
parses and is strictly older than the cutoff. -/
def isOldFolder (now : PyDatetime) (days_old : Nat) (folder : String) : Bool :=
  match strptimeYmd (folderDateStr folder) with
  | some (y, m, d) => decide (midnightValue y m d < cutoffValue now days_old)
  | none => false

/-- Whether a folder name fails to parse (the `ValueError` branch). -/
def isUnparsableFolder (folder : String) : Bool :=
  (strptimeYmd (folderDateStr folder)).isNone

/-- Observable outcome of `clean_old_folders`: the remaining working-directory
entries, the returned `cleaned` list, and the names warned about. -/
structure CleanResult where
  entries : List DirEntry
  cleaned : List String
  warned : List String
deriving DecidableEq

/-- One iteration of the `for folder in list_output_folders():` loop
(`src/manage_outputs.py` lines 25-36): parse the embedded date; if it is older
than the cutoff, `shutil.rmtree(folder)` and record it in `cleaned`; on
`ValueError` print a warning and continue. -/
def cleanStep (now : PyDatetime) (days_old : Nat) (st : CleanResult)
    (folder : String) : CleanResult :=
  match strptimeYmd (folderDateStr folder) with
  | some (y, m, d) =>
    if midnightValue y m d < cutoffValue now days_old then
      { entries := st.entries.filter (fun e => !(decide (e.name = folder))),
        cleaned := st.cleaned ++ [folder],
        warned := st.warned }
    else st
  | none => { st with warned := st.warned ++ [folder] }

/-- `clean_old_folders(days_old)` (`src/manage_outputs.py` lines 20-38). -/
def clean_old_folders (entries : List DirEntry) (now : PyDatetime)
    (days_old : Nat) : CleanResult :=
  (list_output_folders entries).foldl (cleanStep now days_old) ⟨entries, [], []⟩

theorem mem_insertStable {x a : String} :
    ∀ l, x ∈ insertStable a l ↔ x = a ∨ x ∈ l := by
  intro l
  induction l with
  | nil => simp [insertStable]
  | cons b bs ih =>
    by_cases hb : pyStrLe b a = true
    · simp only [insertStable, if_pos hb, List.mem_cons, ih]
      tauto
    · simp only [insertStable, if_neg hb, List.mem_cons]

theorem mem_pySorted {x : String} (l : List String) :
    x ∈ pySorted l ↔ x ∈ l := by
  suffices h : ∀ (l acc : List String),
      x ∈ l.foldl (fun acc a => insertStable a acc) acc ↔ x ∈ acc ∨ x ∈ l by
    simpa [pySorted] using h l []
  intro l
  induction l with
  | nil => intro acc; simp
  | cons a as ih =>
    intro acc
    rw [List.foldl_cons, ih, mem_insertStable]
    simp only [List.mem_cons]
    tauto

theorem prefix_of_mem_folders {entries : List DirEntry} {f : String}
    (h : f ∈ list_output_folders entries) :
    pyStartsWith "utterance_outputs_" f = true := by
  unfold list_output_folders at h
  rw [mem_pySorted] at h
  rcases List.mem_map.1 h with ⟨e, he, rfl⟩
  have hf := List.of_mem_filter he
  simp only [Bool.and_eq_true] at hf
  exact hf.2

/-- The `for folder in ...` loop of `clean_old_folders`, characterized as
three filters over the folder list. -/
theorem clean_foldl_spec (now : PyDatetime) (days_old : Nat) :
    ∀ (fs : List String) (es : List DirEntry) (cl wa : List String),
      fs.foldl (cleanStep now days_old) ⟨es, cl, wa⟩ =
        ⟨es.filter (fun e =>
            !(decide (e.name ∈ fs.filter (isOldFolder now days_old)))),
          cl ++ fs.filter (isOldFolder now days_old),
          wa ++ fs.filter isUnparsableFolder⟩ := by
  intro fs
  induction fs with
  | nil =>
    intro es cl wa
    simp [List.filter]
  | cons f fs ih =>
    intro es cl wa
    rw [List.foldl_cons]
    rcases hp : strptimeYmd (folderDateStr f) with _ | ⟨y, m, d⟩
    · have hold : isOldFolder now days_old f = false := by
        simp [isOldFolder, hp]
      have hunp : isUnparsableFolder f = true := by
        simp [isUnparsableFolder, hp]
      rw [show cleanStep now days_old ⟨es, cl, wa⟩ f = ⟨es, cl, wa ++ [f]⟩ from by
        simp [cleanStep, hp]]
      rw [ih]
      simp [List.filter_cons, hold, hunp]
    · by_cases hlt : midnightValue y m d < cutoffValue now days_old
      · have hold : isOldFolder now days_old f = true := by
          simp [isOldFolder, hp, hlt]
        have hunp : isUnparsableFolder f = false := by
          simp [isUnparsableFolder, hp]
        rw [show cleanStep now days_old ⟨es, cl, wa⟩ f =
            ⟨es.filter (fun e => !(decide (e.name = f))), cl ++ [f], wa⟩ from by
          simp [cleanStep, hp, hlt]]
        rw [ih]
        simp only [List.filter_cons, hold, hunp, if_true, if_false,
          CleanResult.mk.injEq]
        refine ⟨?_, by simp, by simp⟩
        rw [List.filter_filter]
        apply List.filter_congr
        intro x _
        by_cases h1 : x.name = f <;>
          by_cases h2 : x.name ∈ fs.filter (isOldFolder now days_old) <;>
            simp [h1, h2, List.mem_cons]
      · have hold : isOldFolder now days_old f = false := by
          simp [isOldFolder, hp, hlt]
        have hunp : isUnparsableFolder f = false := by
          simp [isUnparsableFolder, hp]
        rw [show cleanStep now days_old ⟨es, cl, wa⟩ f = ⟨es, cl, wa⟩ from by
          simp [cleanStep, hp, hlt]]
        rw [ih]
        simp [List.filter_cons, hold, hunp]

/-- **C9**: `clean_old_folders` returns (and deletes) exactly those output
containers whose name-embedded date parses with `%Y%m%d` to a date strictly
older than `now - days_old` days; containers whose stripped name does not
parse are put on the warning list and nothing else is removed from the
working directory. -/
theorem clean_old_folders_exact (entries : List DirEntry) (now : PyDatetime)
    (days_old : Nat) :
    (clean_old_folders entries now days_old).cleaned =
      (list_output_folders entries).filter (isOldFolder now days_old) ∧
    (clean_old_folders entries now days_old).warned =
      (list_output_folders entries).filter isUnparsableFolder ∧
    (clean_old_folders entries now days_old).entries =
      entries.filter (fun e => !(decide (e.name ∈
        (list_output_folders entries).filter (isOldFolder now days_old)))) := by
  unfold clean_old_folders
  rw [clean_foldl_spec]
  exact ⟨by simp, by simp, rfl⟩

/-- **C10**: the housekeeping cleaner touches only directories whose name
starts with `'utterance_outputs_'`: every entry of the working directory whose
name lacks that prefix survives `clean_old_folders` unchanged, and the
resulting directory is a subset of the original (nothing is added or
renamed). -/
theorem clean_frame_property (entries : List DirEntry) (now : PyDatetime)
    (days_old : Nat) :
    (∀ e ∈ entries, pyStartsWith "utterance_outputs_" e.name = false →
      e ∈ (clean_old_folders entries now days_old).entries) ∧
    ∀ e ∈ (clean_old_folders entries now days_old).entries, e ∈ entries := by
  have hchar : (clean_old_folders entries now days_old).entries =
      entries.filter (fun e => !(decide (e.name ∈
        (list_output_folders entries).filter (isOldFolder now days_old)))) := by
    unfold clean_old_folders
    rw [clean_foldl_spec]
  constructor
  · intro e he hpre
    rw [hchar, List.mem_filter]
    refine ⟨he, ?_⟩
    simp only [Bool.not_eq_true', decide_eq_false_iff_not]
    intro hmem
    have h1 := prefix_of_mem_folders (List.mem_of_mem_filter hmem)
    rw [hpre] at h1
    exact Bool.false_ne_true h1
  · intro e he
    rw [hchar] at he
    exact List.mem_of_mem_filter he

/-- Witness for C10: a plain file and an unrelated directory survive a
concrete cleaning run. -/
theorem clean_frame_property_wit :
    (⟨"notes.txt", false⟩ : DirEntry) ∈
      (clean_old_folders
        [⟨"notes.txt", false⟩, ⟨"utterance_outputs_20200101", true⟩,
         ⟨"projects", true⟩]
        ⟨2026, 10, 12, 9, 0, 0, 0⟩ 7).entries ∧
    (⟨"projects", true⟩ : DirEntry) ∈
      (clean_old_folders
        [⟨"notes.txt", false⟩, ⟨"utterance_outputs_20200101", true⟩,
         ⟨"projects", true⟩]
        ⟨2026, 10, 12, 9, 0, 0, 0⟩ 7).entries :=
  ⟨(clean_frame_property _ _ _).1 ⟨"notes.txt", false⟩ (by decide) (by decide),
   (clean_frame_property _ _ _).1 ⟨"projects", true⟩ (by decide) (by decide)⟩

